import Mathlib

/-!
Verification of the chat-completions proxy (`src/app.py`).

The handler is a single stateless function: it parses the inbound JSON body,
checks the configured credential, builds the upstream request with defaults,
dispatches either a streaming or a buffered upstream call, and maps the
upstream outcome (HTTP response, timeout, or transport failure) to an HTTP
response for the caller.  We embed the handler as a pure function from the
credential, the inbound JSON mapping, and the upstream outcome to the
response together with the upstream call it attempted (if any).
-/

/-- A JSON value as delivered by `request.json`.  Numbers are modelled as
rationals: the handler performs no arithmetic on them, it only passes
literals and inbound values through, so any exact representation is
faithful. -/
inductive JVal where
  | null : JVal
  | bool (b : Bool) : JVal
  | num (q : Rat) : JVal
  | str (s : String) : JVal
  | arr (elems : List JVal) : JVal
  | obj (fields : List (String × JVal)) : JVal

/-- Python truthiness of a JSON-derived value (`None`, `False`, `0`, `""`,
`[]`, and the empty dict are falsy; everything else is truthy).  This is the
test applied by `if nim_request['stream']:` on line 64 of `app.py`. -/
def JVal.truthy : JVal → Bool
  | .null => false
  | .bool b => b
  | .num q => q != 0
  | .str s => s != ""
  | .arr elems => !elems.isEmpty
  | .obj fields => !fields.isEmpty

/-- Field lookup on a JSON object modelled as an association list. -/
def JVal.getField : JVal → String → Option JVal
  | .obj fields, key => fields.lookup key
  | _, _ => none

/-- Python `dict.get(key, default)` on the inbound mapping. -/
def dictGet (data : List (String × JVal)) (key : String) (default : JVal) : JVal :=
  match data.lookup key with
  | some v => v
  | none => default

/-- `NIM_BASE_URL` from `app.py` line 17. -/
def NIM_BASE_URL : String := "https://integrate.api.nvidia.com/v1"

/-- The sentinel credential value from `app.py` line 16 (the default of
`os.environ.get('NIM_API_KEY', 'not-configured')`). -/
def notConfiguredSentinel : String := "not-configured"

/-- The upstream request body built on lines 47-54 of `app.py`: each field is
taken from the inbound body, with the documented default substituted when the
key is absent. -/
def buildNimRequest (data : List (String × JVal)) : List (String × JVal) :=
  [ ("model", dictGet data "model" (.str "meta/llama-3.3-70b-instruct")),
    ("messages", dictGet data "messages" (.arr [])),
    ("temperature", dictGet data "temperature" (.num (7 / 10))),
    ("top_p", dictGet data "top_p" (.num 1)),
    ("max_tokens", dictGet data "max_tokens" (.num 1024)),
    ("stream", dictGet data "stream" (.bool false)) ]

/-- Outcome of the upstream `requests.post` call, as observed by the handler:
either an HTTP response (status code, raw text body, parsed JSON body when
the text parses, and the line sequence yielded by `iter_lines()`), or a
timeout exception, or another transport-level `RequestException` carrying
its textual description. -/
inductive UpstreamOutcome where
  | response (status_code : Nat) (text : String) (jsonBody : Option JVal)
      (lines : List String) : UpstreamOutcome
  | timeout : UpstreamOutcome
  | transportError (desc : String) : UpstreamOutcome

/-- An upstream call as issued by `requests.post` on lines 65-71 /
87-92 of `app.py`: URL, headers, JSON body, streaming flag, and timeout in
seconds. -/
structure NimCall where
  url : String
  headers : List (String × String)
  body : List (String × JVal)
  stream : Bool
  timeout : Nat

/-- The handler's HTTP response: either a JSON response with a status code
(from `jsonify(...)` possibly paired with a status), or a streamed response
with its chunk sequence and mimetype (`Response(generate(), mimetype=...)`,
which Flask serves with status 200). -/
inductive ProxyResult where
  | jsonResp (body : JVal) (status : Nat) : ProxyResult
  | streamResp (chunks : List String) (mimetype : String) : ProxyResult

/-- HTTP status of a handler response (a Flask `Response` without an explicit
status is served as 200). -/
def ProxyResult.status : ProxyResult → Nat
  | .jsonResp _ s => s
  | .streamResp _ _ => 200

/-- Number of fields of the response body when it is a JSON object
(observer used to separate distinct error envelopes). -/
def ProxyResult.bodyFieldCount : ProxyResult → Nat
  | .jsonResp (.obj fields) _ => fields.length
  | _ => 0

/-- What one invocation of the handler did: the upstream call it attempted
(`none` when no upstream network I/O was attempted) and the response it
returned. -/
structure HandlerOutcome where
  sentCall : Option NimCall
  result : ProxyResult

/-- The `generate()` relay of lines 80-83 of `app.py`: iterate the upstream
lines in order and, for each non-empty line, yield the line with a newline
appended. -/
def generate (upstreamLines : List String) : List String :=
  upstreamLines.filterMap (fun chunk => if chunk ≠ "" then some (chunk ++ "\n") else none)

/-- The relayed chunk sequence as the spec words it: take the upstream lines
in order, drop every empty line, and emit each remaining line with a newline
appended.  Stated separately from `generate` (which follows the source) so
the two can be compared. -/
def relayedChunksSpec (upstreamLines : List String) : List String :=
  (upstreamLines.filter (fun l => l ≠ "")).map (fun l => l ++ "\n")

/-- The `POST /v1/chat/completions` handler (`chat_completions`, lines 28-114
of `app.py`), as a function of the configured credential, the inbound JSON
mapping, and the upstream outcome.  The `OPTIONS` preflight branch and
logging are omitted; everything else follows the source line by line. -/
def chat_completions (NIM_API_KEY : String) (data : List (String × JVal))
    (upstream : UpstreamOutcome) : HandlerOutcome :=
  if NIM_API_KEY = notConfiguredSentinel then
    { sentCall := none,
      result := .jsonResp (.obj [("error", .str
        "API key not configured on server. Please set NIM_API_KEY environment variable.")]) 500 }
  else
    let nim_request := buildNimRequest data
    let headers := [("Authorization", "Bearer " ++ NIM_API_KEY),
                    ("Content-Type", "application/json")]
    if ((nim_request.lookup "stream").getD .null).truthy then
      let call : NimCall := { url := NIM_BASE_URL ++ "/chat/completions",
                              headers := headers, body := nim_request,
                              stream := true, timeout := 120 }
      match upstream with
      | .response status_code text _ lines =>
        if status_code ≠ 200 then
          { sentCall := some call,
            result := .jsonResp (.obj [("error", .str text)]) status_code }
        else
          { sentCall := some call,
            result := .streamResp (generate lines) "text/event-stream" }
      | .timeout =>
        { sentCall := some call,
          result := .jsonResp (.obj [("error", .str "Request timed out")]) 504 }
      | .transportError desc =>
        { sentCall := some call,
          result := .jsonResp (.obj [("error", .str ("Request error: " ++ desc))]) 502 }
    else
      let call : NimCall := { url := NIM_BASE_URL ++ "/chat/completions",
                              headers := headers, body := nim_request,
                              stream := false, timeout := 120 }
      match upstream with
      | .response status_code text jsonBody _ =>
        if status_code ≠ 200 then
          { sentCall := some call,
            result := .jsonResp (.obj [("error", .str "NVIDIA API Error"),
                                       ("details", .str text),
                                       ("status_code", .num (status_code : Rat))]) status_code }
        else
          match jsonBody with
          | some j =>
            { sentCall := some call, result := .jsonResp j status_code }
          | none =>
            { sentCall := some call,
              result := .jsonResp (.obj [("error", .str "upstream body is not valid JSON")]) 500 }
      | .timeout =>
        { sentCall := some call,
          result := .jsonResp (.obj [("error", .str "Request timed out")]) 504 }
      | .transportError desc =>
        { sentCall := some call,
          result := .jsonResp (.obj [("error", .str ("Request error: " ++ desc))]) 502 }

/-- The `GET /health` handler (lines 132-141 of `app.py`): no upstream call,
status 200, and the configuration-status body. -/
def health (NIM_API_KEY : String) : Option NimCall × Nat × JVal :=
  let api_configured :=
    NIM_API_KEY != notConfiguredSentinel && NIM_API_KEY.length > 10
  (none, 200,
    .obj [("status", .str "healthy"),
          ("api_key_configured", .bool api_configured),
          ("base_url", .str NIM_BASE_URL),
          ("model", .str "meta/llama-3.3-70b-instruct")])

/-- Looking `stream` up in the constructed upstream request returns exactly
the dispatch value `data.get('stream', False)`. -/
theorem dispatch_stream_value (data : List (String × JVal)) :
    ((buildNimRequest data).lookup "stream").getD JVal.null =
      dictGet data "stream" (.bool false) := by
  rfl

/-- Characterisation of `dict.get` through `List.lookup`. -/
theorem dictGet_eq_lookup_getD (data : List (String × JVal)) (key : String) (d : JVal) :
    dictGet data key d = (data.lookup key).getD d := by
  unfold dictGet
  cases data.lookup key <;> rfl

/-- The source's `generate()` computes the spec's description of the relayed
chunk sequence: filter out the empty lines, then append a newline to each. -/
theorem generate_eq_relayedChunksSpec (ls : List String) :
    generate ls = relayedChunksSpec ls := by
  induction ls with
  | nil => rfl
  | cons l ls ih =>
    by_cases h : l = ""
    · simpa [generate, relayedChunksSpec, h] using ih
    · simpa [generate, relayedChunksSpec, h] using ih

/-- Whenever the credential is configured, the handler attempts exactly one
upstream call: POST of the built request to the fixed URL with bearer
header, the streaming flag set by truthiness of the inbound stream value,
and a 120-second timeout. -/
theorem chat_completions_sentCall (key : String) (data : List (String × JVal))
    (up : UpstreamOutcome) (hkey : key ≠ notConfiguredSentinel) :
    (chat_completions key data up).sentCall =
      some { url := NIM_BASE_URL ++ "/chat/completions",
             headers := [("Authorization", "Bearer " ++ key),
                         ("Content-Type", "application/json")],
             body := buildNimRequest data,
             stream := (dictGet data "stream" (.bool false)).truthy,
             timeout := 120 } := by
  rw [← dispatch_stream_value data]
  by_cases hd : (((buildNimRequest data).lookup "stream").getD JVal.null).truthy
  · cases up with
    | response s t j lines =>
      by_cases hs : s ≠ 200 <;> simp [chat_completions, hkey, hd, hs]
    | timeout => simp [chat_completions, hkey, hd]
    | transportError d => simp [chat_completions, hkey, hd]
  · cases up with
    | response s t j lines =>
      by_cases hs : s ≠ 200
      · simp [chat_completions, hkey, hd, hs]
      · cases j <;> simp [chat_completions, hkey, hd, hs]
    | timeout => simp [chat_completions, hkey, hd]
    | transportError d => simp [chat_completions, hkey, hd]

/-- C1: For every inbound JSON body, the upstream request sent by the
chat-completions handler has exactly the six fields model, messages,
temperature, top_p, max_tokens, stream, where each field equals the inbound
body's value when that key is present and otherwise equals the documented
default (model "meta/llama-3.3-70b-instruct", messages empty sequence,
temperature 0.7, top_p 1.0, max_tokens 1024, stream false); present values
are passed through unchanged with no validation. -/
theorem C1_upstream_request_fields (key : String) (data : List (String × JVal))
    (up : UpstreamOutcome) (hkey : key ≠ notConfiguredSentinel) :
    (chat_completions key data up).sentCall.map NimCall.body = some (buildNimRequest data) ∧
    (buildNimRequest data).map Prod.fst =
      ["model", "messages", "temperature", "top_p", "max_tokens", "stream"] ∧
    (buildNimRequest data).lookup "model" =
      some ((data.lookup "model").getD (.str "meta/llama-3.3-70b-instruct")) ∧
    (buildNimRequest data).lookup "messages" =
      some ((data.lookup "messages").getD (.arr [])) ∧
    (buildNimRequest data).lookup "temperature" =
      some ((data.lookup "temperature").getD (.num (7 / 10))) ∧
    (buildNimRequest data).lookup "top_p" =
      some ((data.lookup "top_p").getD (.num 1)) ∧
    (buildNimRequest data).lookup "max_tokens" =
      some ((data.lookup "max_tokens").getD (.num 1024)) ∧
    (buildNimRequest data).lookup "stream" =
      some ((data.lookup "stream").getD (.bool false)) := by
  refine ⟨?_, rfl, ?_, ?_, ?_, ?_, ?_, ?_⟩
  · rw [chat_completions_sentCall key data up hkey]
    rfl
  all_goals rw [← dictGet_eq_lookup_getD]; rfl

/-- C1 witness: the theorem applied at a concrete configured key, an inbound
body that sets some fields and omits the rest, and a concrete outcome. -/
theorem C1_upstream_request_fields_witness :
    ("k0123456789" : String) ≠ notConfiguredSentinel ∧
    ((chat_completions "k0123456789" [("model", .str "m"), ("max_tokens", .num 5)]
        .timeout).sentCall.map NimCall.body =
      some (buildNimRequest [("model", .str "m"), ("max_tokens", .num 5)]) ∧
    (buildNimRequest [("model", .str "m"), ("max_tokens", .num 5)]).map Prod.fst =
      ["model", "messages", "temperature", "top_p", "max_tokens", "stream"] ∧
    (buildNimRequest [("model", .str "m"), ("max_tokens", .num 5)]).lookup "model" =
      some (([("model", JVal.str "m"), ("max_tokens", JVal.num 5)].lookup "model").getD
        (.str "meta/llama-3.3-70b-instruct")) ∧
    (buildNimRequest [("model", .str "m"), ("max_tokens", .num 5)]).lookup "messages" =
      some (([("model", JVal.str "m"), ("max_tokens", JVal.num 5)].lookup "messages").getD
        (.arr [])) ∧
    (buildNimRequest [("model", .str "m"), ("max_tokens", .num 5)]).lookup "temperature" =
      some (([("model", JVal.str "m"), ("max_tokens", JVal.num 5)].lookup "temperature").getD
        (.num (7 / 10))) ∧
    (buildNimRequest [("model", .str "m"), ("max_tokens", .num 5)]).lookup "top_p" =
      some (([("model", JVal.str "m"), ("max_tokens", JVal.num 5)].lookup "top_p").getD
        (.num 1)) ∧
    (buildNimRequest [("model", .str "m"), ("max_tokens", .num 5)]).lookup "max_tokens" =
      some (([("model", JVal.str "m"), ("max_tokens", JVal.num 5)].lookup "max_tokens").getD
        (.num 1024)) ∧
    (buildNimRequest [("model", .str "m"), ("max_tokens", .num 5)]).lookup "stream" =
      some (([("model", JVal.str "m"), ("max_tokens", JVal.num 5)].lookup "stream").getD
        (.bool false))) :=
  ⟨by decide,
   C1_upstream_request_fields "k0123456789" [("model", .str "m"), ("max_tokens", .num 5)]
     .timeout (by decide)⟩

/-- C2: For every streaming request where the upstream responds with status
200, the relayed response has content type text/event-stream and is the
sequence obtained by taking the upstream response's lines in order, dropping
every empty line, and emitting each non-empty line as one chunk with a
newline appended. -/
theorem C2_streaming_relay (key : String) (data : List (String × JVal))
    (text : String) (jsonBody : Option JVal) (lines : List String)
    (hkey : key ≠ notConfiguredSentinel)
    (hstream : (dictGet data "stream" (.bool false)).truthy = true) :
    (chat_completions key data (.response 200 text jsonBody lines)).result =
      .streamResp (relayedChunksSpec lines) "text/event-stream" := by
  have hd : (((buildNimRequest data).lookup "stream").getD JVal.null).truthy = true := by
    rw [dispatch_stream_value]; exact hstream
  simp [chat_completions, hkey, hd, generate_eq_relayedChunksSpec]

/-- C2 witness: the theorem applied at concrete upstream lines
"data: A", "" (empty), "data: B", whose relayed chunks evaluate to exactly
"data: A\n" then "data: B\n". -/
theorem C2_streaming_relay_witness :
    ("k0123456789" : String) ≠ notConfiguredSentinel ∧
    (dictGet [("stream", JVal.bool true)] "stream" (.bool false)).truthy = true ∧
    (chat_completions "k0123456789" [("stream", JVal.bool true)]
        (.response 200 "" none ["data: A", "", "data: B"])).result =
      .streamResp (relayedChunksSpec ["data: A", "", "data: B"]) "text/event-stream" ∧
    relayedChunksSpec ["data: A", "", "data: B"] = ["data: A\n", "data: B\n"] :=
  ⟨by decide, by decide,
   C2_streaming_relay "k0123456789" [("stream", JVal.bool true)] "" none
     ["data: A", "", "data: B"] (by decide) (by decide),
   by rfl⟩

/-- C3: For every non-streaming request where the upstream responds with
status s different from 200 and body text t, the handler returns status s
verbatim with JSON body containing error "NVIDIA API Error", details t, and
status_code s. -/
theorem C3_nonstreaming_error_relay (key : String) (data : List (String × JVal))
    (s : Nat) (t : String) (jsonBody : Option JVal) (lines : List String)
    (hkey : key ≠ notConfiguredSentinel)
    (hstream : (dictGet data "stream" (.bool false)).truthy = false)
    (hs : s ≠ 200) :
    (chat_completions key data (.response s t jsonBody lines)).result =
      .jsonResp (.obj [("error", .str "NVIDIA API Error"),
                       ("details", .str t),
                       ("status_code", .num (s : Rat))]) s := by
  have hd : (((buildNimRequest data).lookup "stream").getD JVal.null).truthy = false := by
    rw [dispatch_stream_value]; exact hstream
  simp [chat_completions, hkey, hd, hs]

/-- C3 witness: an upstream 429 with body "rate limited" yields 429 with the
three-field error envelope. -/
theorem C3_nonstreaming_error_relay_witness :
    ("k0123456789" : String) ≠ notConfiguredSentinel ∧
    (dictGet ([] : List (String × JVal)) "stream" (.bool false)).truthy = false ∧
    (429 : Nat) ≠ 200 ∧
    (chat_completions "k0123456789" [] (.response 429 "rate limited" none [])).result =
      .jsonResp (.obj [("error", .str "NVIDIA API Error"),
                       ("details", .str "rate limited"),
                       ("status_code", .num ((429 : Nat) : Rat))]) 429 :=
  ⟨by decide, by decide, by decide,
   C3_nonstreaming_error_relay "k0123456789" [] 429 "rate limited" none []
     (by decide) (by decide) (by decide)⟩

/-- C4 counterexample: with upstream 429 / "rate limited", the streaming
request's error response differs from the non-streaming one — the streaming
path returns body with the single field error holding the raw text, while
the non-streaming path returns the three-field envelope — so the streaming
non-200 behavior is not the same as the non-streaming one. -/
theorem C4_counterexample :
    (chat_completions "k0123456789" [("stream", JVal.bool true)]
       (.response 429 "rate limited" none [])).result ≠
    (chat_completions "k0123456789" [("stream", JVal.bool false)]
       (.response 429 "rate limited" none [])).result := by
  intro h
  have h1 : (chat_completions "k0123456789" [("stream", JVal.bool true)]
      (.response 429 "rate limited" none [])).result.bodyFieldCount = 1 := rfl
  have h2 : (chat_completions "k0123456789" [("stream", JVal.bool false)]
      (.response 429 "rate limited" none [])).result.bodyFieldCount = 3 := rfl
  rw [h, h2] at h1
  exact absurd h1 (by decide)

/-- C4 (amended): for every streaming request where the upstream responds
with status different from 200 and body text t, the handler returns a single
JSON response (not wrapped as a stream) carrying the raw upstream status
code verbatim, with body holding the raw upstream text under the single
field error — not the three-field error, details, status_code envelope used
by the non-streaming path. -/
theorem C4_streaming_error_relay (key : String) (data : List (String × JVal))
    (s : Nat) (t : String) (jsonBody : Option JVal) (lines : List String)
    (hkey : key ≠ notConfiguredSentinel)
    (hstream : (dictGet data "stream" (.bool false)).truthy = true)
    (hs : s ≠ 200) :
    (chat_completions key data (.response s t jsonBody lines)).result =
      .jsonResp (.obj [("error", .str t)]) s := by
  have hd : (((buildNimRequest data).lookup "stream").getD JVal.null).truthy = true := by
    rw [dispatch_stream_value]; exact hstream
  simp [chat_completions, hkey, hd, hs]

/-- C4 witness: the amended theorem applied at upstream 429 / "rate limited"
on a streaming request. -/
theorem C4_streaming_error_relay_witness :
    ("k0123456789" : String) ≠ notConfiguredSentinel ∧
    (dictGet [("stream", JVal.bool true)] "stream" (.bool false)).truthy = true ∧
    (429 : Nat) ≠ 200 ∧
    (chat_completions "k0123456789" [("stream", JVal.bool true)]
        (.response 429 "rate limited" none [])).result =
      .jsonResp (.obj [("error", .str "rate limited")]) 429 :=
  ⟨by decide, by decide, by decide,
   C4_streaming_error_relay "k0123456789" [("stream", JVal.bool true)] 429
     "rate limited" none [] (by decide) (by decide) (by decide)⟩

/-- C5: For every POST to /v1/chat/completions, if the server credential
equals the sentinel value "not-configured", the handler returns status 500
with an error payload instructing the operator to set the credential, and no
upstream network I/O is attempted. -/
theorem C5_unconfigured_key (key : String) (data : List (String × JVal))
    (up : UpstreamOutcome) (hkey : key = notConfiguredSentinel) :
    (chat_completions key data up).result =
      .jsonResp (.obj [("error", .str
        "API key not configured on server. Please set NIM_API_KEY environment variable.")]) 500 ∧
    (chat_completions key data up).sentCall = none := by
  subst hkey
  exact ⟨rfl, rfl⟩

/-- C5 witness: the theorem applied at the sentinel credential with a
concrete body and outcome. -/
theorem C5_unconfigured_key_witness :
    ("not-configured" : String) = notConfiguredSentinel ∧
    ((chat_completions "not-configured" [("stream", JVal.bool true)] .timeout).result =
      .jsonResp (.obj [("error", .str
        "API key not configured on server. Please set NIM_API_KEY environment variable.")]) 500 ∧
    (chat_completions "not-configured" [("stream", JVal.bool true)] .timeout).sentCall = none) :=
  ⟨rfl, C5_unconfigured_key "not-configured" [("stream", JVal.bool true)] .timeout rfl⟩

/-- C6: For every non-streaming request where the upstream responds with
status 200 and a JSON body, the handler returns status 200 with that JSON
body unchanged, with no field re-mapping. -/
theorem C6_nonstreaming_success_passthrough (key : String) (data : List (String × JVal))
    (t : String) (j : JVal) (lines : List String)
    (hkey : key ≠ notConfiguredSentinel)
    (hstream : (dictGet data "stream" (.bool false)).truthy = false) :
    (chat_completions key data (.response 200 t (some j) lines)).result =
      .jsonResp j 200 := by
  have hd : (((buildNimRequest data).lookup "stream").getD JVal.null).truthy = false := by
    rw [dispatch_stream_value]; exact hstream
  simp [chat_completions, hkey, hd]

/-- C6 witness: an upstream 200 with JSON body holding id "x" is returned
unchanged with status 200. -/
theorem C6_nonstreaming_success_passthrough_witness :
    ("k0123456789" : String) ≠ notConfiguredSentinel ∧
    (dictGet ([] : List (String × JVal)) "stream" (.bool false)).truthy = false ∧
    (chat_completions "k0123456789" []
        (.response 200 "" (some (.obj [("id", .str "x")])) [])).result =
      .jsonResp (.obj [("id", .str "x")]) 200 :=
  ⟨by decide, by decide,
   C6_nonstreaming_success_passthrough "k0123456789" [] "" (.obj [("id", .str "x")]) []
     (by decide) (by decide)⟩

/-- C7: For every request (streaming or non-streaming) where the upstream
call raises a timeout (whose bound is the 120 seconds passed to the call),
the handler returns status 504 with the fixed error message; the timeout is
never mapped to the 502 transport-failure status. -/
theorem C7_timeout_504 (key : String) (data : List (String × JVal))
    (hkey : key ≠ notConfiguredSentinel) :
    (chat_completions key data .timeout).result =
      .jsonResp (.obj [("error", .str "Request timed out")]) 504 ∧
    (chat_completions key data .timeout).result.status ≠ 502 ∧
    (chat_completions key data .timeout).sentCall.map NimCall.timeout = some 120 := by
  have h : (chat_completions key data .timeout).result =
      .jsonResp (.obj [("error", .str "Request timed out")]) 504 := by
    by_cases hd : (((buildNimRequest data).lookup "stream").getD JVal.null).truthy
    · simp [chat_completions, hkey, hd]
    · simp [chat_completions, hkey, hd]
  refine ⟨h, ?_, ?_⟩
  · rw [h]; decide
  · rw [chat_completions_sentCall key data .timeout hkey]; rfl

/-- C7 witness: the theorem applied with a configured key and a streaming
inbound body. -/
theorem C7_timeout_504_witness :
    ("k0123456789" : String) ≠ notConfiguredSentinel ∧
    ((chat_completions "k0123456789" [("stream", JVal.bool true)] .timeout).result =
      .jsonResp (.obj [("error", .str "Request timed out")]) 504 ∧
    (chat_completions "k0123456789" [("stream", JVal.bool true)] .timeout).result.status ≠ 502 ∧
    (chat_completions "k0123456789" [("stream", JVal.bool true)] .timeout).sentCall.map
      NimCall.timeout = some 120) :=
  ⟨by decide, C7_timeout_504 "k0123456789" [("stream", JVal.bool true)] (by decide)⟩

/-- C8: For every request where the upstream call raises a transport-level
failure other than a timeout, the handler returns status 502 with an error
payload containing the failure's textual description. -/
theorem C8_transport_error_502 (key : String) (data : List (String × JVal))
    (desc : String) (hkey : key ≠ notConfiguredSentinel) :
    (chat_completions key data (.transportError desc)).result =
      .jsonResp (.obj [("error", .str ("Request error: " ++ desc))]) 502 := by
  by_cases hd : (((buildNimRequest data).lookup "stream").getD JVal.null).truthy
  · simp [chat_completions, hkey, hd]
  · simp [chat_completions, hkey, hd]

/-- C8 witness: a connection-refused transport failure yields 502 with the
description in the payload. -/
theorem C8_transport_error_502_witness :
    ("k0123456789" : String) ≠ notConfiguredSentinel ∧
    (chat_completions "k0123456789" [] (.transportError "Connection refused")).result =
      .jsonResp (.obj [("error", .str ("Request error: " ++ "Connection refused"))]) 502 :=
  ⟨by decide, C8_transport_error_502 "k0123456789" [] "Connection refused" (by decide)⟩

/-- C9: For every credential value, GET /health performs no upstream call
and returns status 200 with api_key_configured true iff the credential
differs from the sentinel and its length exceeds 10 characters, together
with the fixed base URL and the fixed model name. -/
theorem C9_health_report (key : String) :
    (health key).1 = none ∧
    (health key).2.1 = 200 ∧
    ((health key).2.2.getField "api_key_configured" = some (.bool true) ↔
      (key ≠ notConfiguredSentinel ∧ key.length > 10)) ∧
    (health key).2.2.getField "base_url" =
      some (.str "https://integrate.api.nvidia.com/v1") ∧
    (health key).2.2.getField "model" =
      some (.str "meta/llama-3.3-70b-instruct") := by
  refine ⟨rfl, rfl, ?_, rfl, rfl⟩
  have hb : (health key).2.2.getField "api_key_configured" =
      some (.bool ((key != notConfiguredSentinel) && decide (key.length > 10))) := rfl
  rw [hb]
  simp [Bool.and_eq_true, bne_iff_ne, decide_eq_true_eq]

/-- C10: The dispatch path is chosen by truthiness of the inbound stream
value, not by boolean equality: the streaming flag of the attempted upstream
call equals the Python truthiness of the inbound stream value, so the
non-empty string "false" and the integer 1 dispatch the streaming path while
false, 0, the empty string, and null dispatch the non-streaming path. -/
theorem C10_stream_dispatch_truthiness (key : String) (up : UpstreamOutcome)
    (hkey : key ≠ notConfiguredSentinel) :
    (∀ (data : List (String × JVal)) (v : JVal), data.lookup "stream" = some v →
      (chat_completions key data up).sentCall.map NimCall.stream = some v.truthy) ∧
    (chat_completions key [("stream", .str "false")] up).sentCall.map NimCall.stream =
      some true ∧
    (chat_completions key [("stream", .num 1)] up).sentCall.map NimCall.stream =
      some true ∧
    (chat_completions key [("stream", .bool false)] up).sentCall.map NimCall.stream =
      some false ∧
    (chat_completions key [("stream", .num 0)] up).sentCall.map NimCall.stream =
      some false ∧
    (chat_completions key [("stream", .str "")] up).sentCall.map NimCall.stream =
      some false ∧
    (chat_completions key [("stream", .null)] up).sentCall.map NimCall.stream =
      some false := by
  have hgen : ∀ (data : List (String × JVal)) (v : JVal), data.lookup "stream" = some v →
      (chat_completions key data up).sentCall.map NimCall.stream = some v.truthy := by
    intro data v hv
    rw [chat_completions_sentCall key data up hkey]
    simp [dictGet, hv]
  refine ⟨hgen, ?_, ?_, ?_, ?_, ?_, ?_⟩
  · exact (hgen [("stream", .str "false")] (.str "false") rfl).trans rfl
  · exact (hgen [("stream", .num 1)] (.num 1) rfl).trans rfl
  · exact (hgen [("stream", .bool false)] (.bool false) rfl).trans rfl
  · exact (hgen [("stream", .num 0)] (.num 0) rfl).trans rfl
  · exact (hgen [("stream", .str "")] (.str "") rfl).trans rfl
  · exact (hgen [("stream", .null)] .null rfl).trans rfl

/-- C10 witness: the theorem applied at a concrete configured key and a
concrete upstream outcome. -/
theorem C10_stream_dispatch_truthiness_witness :
    ("k0123456789" : String) ≠ notConfiguredSentinel ∧
    ((∀ (data : List (String × JVal)) (v : JVal), data.lookup "stream" = some v →
      (chat_completions "k0123456789" data .timeout).sentCall.map NimCall.stream =
        some v.truthy) ∧
    (chat_completions "k0123456789" [("stream", .str "false")] .timeout).sentCall.map
      NimCall.stream = some true ∧
    (chat_completions "k0123456789" [("stream", .num 1)] .timeout).sentCall.map
      NimCall.stream = some true ∧
    (chat_completions "k0123456789" [("stream", .bool false)] .timeout).sentCall.map
      NimCall.stream = some false ∧
    (chat_completions "k0123456789" [("stream", .num 0)] .timeout).sentCall.map
      NimCall.stream = some false ∧
    (chat_completions "k0123456789" [("stream", .str "")] .timeout).sentCall.map
      NimCall.stream = some false ∧
    (chat_completions "k0123456789" [("stream", .null)] .timeout).sentCall.map
      NimCall.stream = some false) :=
  ⟨by decide, C10_stream_dispatch_truthiness "k0123456789" .timeout (by decide)⟩
